import Mathlib

/-!
Verification of the SRT timestamp adjuster (src/srt_timestamp_adjuster_gui.py)
against its natural-language specification.

Python strings are modelled as `List Char`.  The tool's core is
`increment_line` (source lines 45-57) and `generate_new_srt_file`
(source lines 27-42); `main` (lines 102-105) wraps parse failures into a
ValueError with a fixed message.  The default time format '%H:%M:%S,%f'
is modelled concretely, following CPython's _strptime regular-expression
semantics for %H, %M, %S, %f (ASCII digits) and datetime/strftime
rendering (%H/%M/%S zero-padded to two digits, %f to six digits).
-/

set_option maxHeartbeats 1000000

namespace Srt

/-- The range marker '-->' (source line 18: RANGE_MARKER = '-->'). -/
def RANGE_MARKER : List Char := ['-', '-', '>']

/-- Scan left to right for the first occurrence of the marker '-->'; when it
occurs, return the text before it and the text after it. -/
def findMarker : List Char → Option (List Char × List Char)
  | [] => none
  | c :: rest =>
    if c = '-' ∧ rest.take 2 = ['-', '>'] then some ([], rest.drop 2)
    else
      match findMarker rest with
      | some (pre, post) => some (c :: pre, post)
      | none => none

/-- Repeatedly cut at the leftmost marker occurrence.  Each cut removes the
three marker characters, so `l.length` steps of fuel always suffice. -/
def splitMarkerF : Nat → List Char → List (List Char)
  | 0, l => [l]
  | fuel + 1, l =>
    match findMarker l with
    | some (pre, post) => pre :: splitMarkerF fuel post
    | none => [l]

/-- Python str.split('-->') without maxsplit: cut at every non-overlapping
occurrence of the marker, left to right; splitting the empty string yields
['']. -/
def splitMarker (l : List Char) : List (List Char) := splitMarkerF l.length l

/-- Python's substring test `RANGE_MARKER in line` (source line 30): the split
produces more than one part exactly when the marker occurs in the line. -/
def containsMarker (l : List Char) : Bool := (splitMarker l).length != 1

/-- ASCII whitespace stripped by Python str.strip(). -/
def pySpace (c : Char) : Bool :=
  c == ' ' || c == '\t' || c == '\n' || c == '\r' || c == '\x0b' || c == '\x0c'

/-- Python str.strip(): remove leading and trailing whitespace. -/
def pyStrip (l : List Char) : List Char :=
  ((l.dropWhile pySpace).reverse.dropWhile pySpace).reverse

/-- ASCII digit test (the \d of CPython _strptime's compiled pattern). -/
def isDig (c : Char) : Bool := c.isDigit

/-- Numeric value of an ASCII digit character. -/
def digitVal (c : Char) : Nat := c.toNat - 48

/-- The ASCII digit character for a value below ten. -/
def dchar : Nat → Char
  | 0 => '0' | 1 => '1' | 2 => '2' | 3 => '3' | 4 => '4'
  | 5 => '5' | 6 => '6' | 7 => '7' | 8 => '8' | _ => '9'

/-- One strptime numeric field of at most two digits (%H, %M, %S).  CPython
compiles these to alternations that try the two-digit forms first and fall
back to a single digit; since the following pattern character is never a
digit, a two-digit read that exceeds the field's bound can never be rescued
by backtracking, so the net behaviour is: two digits within the bound, or a
single digit.  The bound is 23 for %H and 59 for %M; for %S the pattern
admits 60 and 61 but the datetime constructor then rejects them, so the net
bound is again 59. -/
def parseField2 (maxV : Nat) : List Char → Option (Nat × List Char)
  | c1 :: c2 :: rest =>
    if isDig c1 && isDig c2 then
      if digitVal c1 * 10 + digitVal c2 ≤ maxV then
        some (digitVal c1 * 10 + digitVal c2, rest)
      else none
    else if isDig c1 then some (digitVal c1, c2 :: rest)
    else none
  | [c1] => if isDig c1 then some (digitVal c1, []) else none
  | [] => none

/-- Consume a literal character of the format string. -/
def expectChar (c : Char) : List Char → Option (List Char)
  | x :: rest => if x = c then some rest else none
  | [] => none

/-- Take up to n leading ASCII digits. -/
def takeDigits : Nat → List Char → List Char × List Char
  | 0, l => ([], l)
  | _ + 1, [] => ([], [])
  | n + 1, c :: rest =>
    if isDig c then
      let p := takeDigits n rest
      (c :: p.1, p.2)
    else ([], c :: rest)

/-- Value of a digit string read left to right. -/
def digitsVal (ds : List Char) : Nat := ds.foldl (fun a c => a * 10 + digitVal c) 0

/-- The %f field: one to six digits, zero-padded on the right to six, read as
a microsecond count. -/
def parseFrac (l : List Char) : Option (Nat × List Char) :=
  let p := takeDigits 6 l
  if p.1.isEmpty then none
  else some (digitsVal p.1 * 10 ^ (6 - p.1.length), p.2)

/-- datetime.strptime under the default format '%H:%M:%S,%f', returned as the
microsecond-of-day of the parsed time (the attached placeholder date
1900-01-01 carries no information).  strptime requires the whole string to be
consumed ("unconverted data remains" otherwise). -/
def parseTS (l : List Char) : Option Nat := do
  let p1 ← parseField2 23 l
  let r1 ← expectChar ':' p1.2
  let p2 ← parseField2 59 r1
  let r2 ← expectChar ':' p2.2
  let p3 ← parseField2 59 r2
  let r3 ← expectChar ',' p3.2
  let p4 ← parseFrac r3
  if p4.2.isEmpty then
    pure (((p1.1 * 60 + p2.1) * 60 + p3.1) * 1000000 + p4.1)
  else none

/-- Microseconds in a day. -/
def microsPerDay : Nat := 86400000000

/-- Two-digit zero-padded rendering (strftime %H, %M, %S). -/
def pad2 (n : Nat) : List Char := [dchar (n / 10), dchar (n % 10)]

/-- Six-digit zero-padded rendering (strftime %f). -/
def pad6 (n : Nat) : List Char :=
  [dchar (n / 100000 % 10), dchar (n / 10000 % 10), dchar (n / 1000 % 10),
   dchar (n / 100 % 10), dchar (n / 10 % 10), dchar (n % 10)]

/-- datetime.strftime under the default format '%H:%M:%S,%f' applied to a
microsecond-of-day: the date part of the datetime is not rendered, and the
%f field always prints six digits. -/
def fmtTS (t : Nat) : List Char :=
  pad2 (t / 3600000000) ++ ':' :: pad2 (t / 60000000 % 60) ++
    ':' :: pad2 (t / 1000000 % 60) ++ ',' :: pad6 (t % 1000000)

/-- Adding timedelta(milliseconds=offset) to the parsed datetime and keeping
only the time of day (source lines 53-57): the date silently rolls on
over- or underflow and is then discarded by strftime, so the visible effect
is time-of-day arithmetic modulo 24 hours.  Modelling boundary: this is
total, whereas CPython raises OverflowError (uncaught by main) once the
offset pushes the datetime outside years 1-9999, i.e. below about -6e13 ms
or above about +2.5e14 ms from the placeholder date 1900-01-01; statements
quantifying over the offset must therefore either stand under a hypothesis
that keeps the arithmetic inside one day (`noWrap`) or not depend on the
shifted value. -/
def shiftMicros (t : Nat) (offsetMs : Int) : Nat :=
  (((t : Int) + offsetMs * 1000) % (microsPerDay : Int)).toNat

/-- The "no 24-hour wrap" proviso for one timestamp: the shifted value stays
within the same day, so the underlying datetime arithmetic neither rolls the
date nor can it overflow CPython's year range. -/
abbrev noWrap (t : Nat) (offsetMs : Int) : Prop :=
  0 ≤ (t : Int) + offsetMs * 1000 ∧ (t : Int) + offsetMs * 1000 < (microsPerDay : Int)

/-- A range line exactly as the tool serializes it: the two formatted
timestamps joined by ' --> ' with a trailing newline (source lines 54-57). -/
def canonicalLine (t1 t2 : Nat) : List Char :=
  fmtTS t1 ++ ' ' :: '-' :: '-' :: '>' :: ' ' :: fmtTS t2 ++ ['\n']

/-- increment_line (source lines 45-57): split the line on the marker into
exactly two parts (unpacking into ts1, ts2 raises ValueError otherwise),
strip and parse each part, shift both, and rebuild the line as
start + ' --> ' + end + newline.  A parse failure on either part is a
ValueError; all failure modes are modelled as `none`. -/
def increment_line (line : List Char) (offset_ms : Int) : Option (List Char) :=
  match splitMarker line with
  | [a, b] =>
    match parseTS (pyStrip a), parseTS (pyStrip b) with
    | some t1, some t2 => some (canonicalLine (shiftMicros t1 offset_ms) (shiftMicros t2 offset_ms))
    | _, _ => none
  | _ => none

/-- generate_new_srt_file (source lines 27-42), at the level of the line
list: lines holding the marker are transformed by increment_line, all other
lines are appended unchanged; the first exception aborts the whole run
(`none`).  Reading the input file and writing the output file are modelled
separately (`fileLines`, `outputFileAfter`). -/
def generate_new_srt_file : List (List Char) → Int → Option (List (List Char))
  | [], _ => some []
  | l :: ls, d =>
    if containsMarker l then
      match increment_line l d with
      | some nl => (generate_new_srt_file ls d).map (fun r => nl :: r)
      | none => none
    else (generate_new_srt_file ls d).map (fun r => l :: r)

/-- Universal-newline translation performed by Python's open(..., 'r') in
text mode with newline=None: both '\r\n' and a lone '\r' are returned to the
caller as '\n' (io.TextIOWrapper documentation). -/
def univNL : List Char → List Char
  | [] => []
  | c :: rest =>
    if c = '\r' then
      match rest with
      | c2 :: rest2 => if c2 = '\n' then '\n' :: univNL rest2 else '\n' :: univNL (c2 :: rest2)
      | [] => ['\n']
    else c :: univNL rest

/-- Split translated text into lines, each keeping its '\n' terminator, the
last line possibly unterminated; the empty text has no lines.  This is what
iterating a Python text file yields. -/
def splitLinesKeep : List Char → List Char → List (List Char)
  | acc, [] => if acc.isEmpty then [] else [acc.reverse]
  | acc, c :: rest =>
    if c = '\n' then (acc.reverse ++ ['\n']) :: splitLinesKeep [] rest
    else splitLinesKeep (c :: acc) rest

/-- The lines the program sees when it iterates the input file. -/
def fileLines (content : List Char) : List (List Char) :=
  splitLinesKeep [] (univNL content)

/-- Byte-level run on a POSIX system: read the input bytes with
universal-newline translation, process the lines, and concatenate them into
the output file (os.linesep is '\n' there, so writing is the identity on the
processed text). -/
def shiftFileBytes (content : List Char) (offsetMs : Int) : Option (List Char) :=
  (generate_new_srt_file (fileLines content) offsetMs).map List.flatten

/-- Content of the output path after a run, given its previous content
(`none` when the file does not exist): the source builds the whole
transformed line list in memory and only then opens the output file for
writing (source lines 27-42), so a failed run leaves the path in its
previous state. -/
def outputFileAfter (prev : Option (List Char)) (lines : List (List Char)) (offsetMs : Int) :
    Option (List Char) :=
  match generate_new_srt_file lines offsetMs with
  | some out => some out.flatten
  | none => prev

/-- Outcome surfaced by main. -/
inductive ShiftResult where
  | success (outLines : List (List Char))
  | parseError (message : List Char)
  deriving DecidableEq, Repr

/-- The fixed message of the ValueError raised by main. -/
def pyErrorMessage : List Char := "Failed to parse SRT file: incorrect format".toList

/-- main (source lines 102-105): ValueError and TypeError escaping the shift
are re-raised as a ValueError carrying the fixed message. -/
def mainShift (lines : List (List Char)) (offsetMs : Int) : ShiftResult :=
  match generate_new_srt_file lines offsetMs with
  | some out => .success out
  | none => .parseError pyErrorMessage

/-- Prefix test on character lists. -/
def isPrefixL : List Char → List Char → Bool
  | [], _ => true
  | _ :: _, [] => false
  | a :: as, b :: bs => a == b && isPrefixL as bs

/-- Substring test on character lists. -/
def containsSub (needle : List Char) : List Char → Bool
  | [] => isPrefixL needle []
  | c :: rest => isPrefixL needle (c :: rest) || containsSub needle rest

end Srt

namespace Srt

/-! ### Digit helper lemmas -/

theorem dchar_not_dash (n : Nat) : dchar n ≠ '-' := by
  unfold dchar; split <;> decide

theorem dchar_not_space (n : Nat) : pySpace (dchar n) = false := by
  unfold dchar; split <;> decide

theorem isDig_dchar (n : Nat) : isDig (dchar n) = true := by
  unfold dchar; split <;> decide

theorem digitVal_dchar (n : Nat) (h : n < 10) : digitVal (dchar n) = n := by
  interval_cases n <;> decide

/-! ### Lemmas about the marker split -/

theorem findMarker_of_no_dash (l : List Char) (h : ∀ c ∈ l, c ≠ '-') :
    findMarker l = none := by
  induction l with
  | nil => rfl
  | cons c rest ih =>
    have hc : c ≠ '-' := h c (by simp)
    have hr : findMarker rest = none := ih (fun x hx => h x (by simp [hx]))
    simp [findMarker, hc, hr]

theorem splitMarkerF_of_none (fuel : Nat) (l : List Char) (h : findMarker l = none) :
    splitMarkerF fuel l = [l] := by
  cases fuel with
  | zero => rfl
  | succ f => simp [splitMarkerF, h]

theorem splitMarker_of_no_dash (l : List Char) (h : ∀ c ∈ l, c ≠ '-') :
    splitMarker l = [l] :=
  splitMarkerF_of_none _ _ (findMarker_of_no_dash l h)

theorem findMarker_append (xs ys : List Char) (h : ∀ c ∈ xs, c ≠ '-') :
    findMarker (xs ++ '-' :: '-' :: '>' :: ys) = some (xs, ys) := by
  induction xs with
  | nil => simp [findMarker]
  | cons x xs ih =>
    have hx : x ≠ '-' := h x (by simp)
    have hr := ih (fun c hc => h c (by simp [hc]))
    simp [findMarker, hx, hr]

theorem splitMarker_two (xs ys : List Char) (hx : ∀ c ∈ xs, c ≠ '-')
    (hy : ∀ c ∈ ys, c ≠ '-') :
    splitMarker (xs ++ '-' :: '-' :: '>' :: ys) = [xs, ys] := by
  obtain ⟨f, hf⟩ : ∃ f, (xs ++ '-' :: '-' :: '>' :: ys).length = f + 1 := by
    refine ⟨(xs ++ '-' :: '-' :: '>' :: ys).length - 1, ?_⟩
    have : 0 < (xs ++ '-' :: '-' :: '>' :: ys).length := by simp
    omega
  unfold splitMarker
  rw [hf]
  simp [splitMarkerF, findMarker_append xs ys hx,
    splitMarkerF_of_none f ys (findMarker_of_no_dash ys hy)]

/-! ### Lemmas about stripping -/

theorem dropWhile_spaces_append (pre l : List Char) (hpre : ∀ c ∈ pre, pySpace c = true) :
    (pre ++ l).dropWhile pySpace = l.dropWhile pySpace := by
  induction pre with
  | nil => rfl
  | cons c rest ih =>
    simp [List.dropWhile_cons, hpre c (by simp), ih (fun x hx => hpre x (by simp [hx]))]

theorem dropWhile_all_space (l : List Char) (h : ∀ c ∈ l, pySpace c = true) :
    l.dropWhile pySpace = [] := by
  induction l with
  | nil => rfl
  | cons c rest ih =>
    simp [List.dropWhile_cons, h c (by simp), ih (fun x hx => h x (by simp [hx]))]

theorem dropWhile_all_nonspace (l : List Char) (h : ∀ c ∈ l, pySpace c = false) :
    l.dropWhile pySpace = l := by
  cases l with
  | nil => rfl
  | cons c rest => simp [List.dropWhile_cons, h c (by simp)]

theorem pyStrip_of_clean (xs pre post : List Char) (hx : ∀ c ∈ xs, pySpace c = false)
    (hpre : ∀ c ∈ pre, pySpace c = true) (hpost : ∀ c ∈ post, pySpace c = true) :
    pyStrip (pre ++ xs ++ post) = xs := by
  unfold pyStrip
  rw [List.append_assoc, dropWhile_spaces_append pre (xs ++ post) hpre]
  cases xs with
  | nil =>
    simp only [List.nil_append]
    rw [dropWhile_all_space post hpost]
    rfl
  | cons c rest =>
    rw [List.cons_append, List.dropWhile_cons]
    simp only [hx c (by simp), Bool.false_eq_true, if_false]
    rw [List.reverse_cons, List.reverse_append, List.append_assoc,
      dropWhile_spaces_append post.reverse _ (fun x hx2 => hpost x (List.mem_reverse.mp hx2))]
    have hns : ∀ x ∈ rest.reverse ++ [c], pySpace x = false := by
      intro x hx2
      rcases List.mem_append.mp hx2 with h1 | h1
      · exact hx x (by simp [List.mem_reverse.mp h1])
      · simp at h1; rw [h1]; exact hx c (by simp)
    rw [dropWhile_all_nonspace _ hns]
    simp

end Srt

namespace Srt

/-! ### Characters produced by the formatter -/

theorem fmtTS_chars (t : Nat) : ∀ c ∈ fmtTS t, pySpace c = false ∧ c ≠ '-' := by
  intro c hc
  simp only [fmtTS, pad2, pad6, List.mem_append, List.mem_cons, List.not_mem_nil,
    or_false] at hc
  casesm* _ ∨ _ <;> subst_vars <;>
    first
      | exact ⟨dchar_not_space _, dchar_not_dash _⟩
      | exact ⟨by decide, by decide⟩

/-! ### Parsing the formatter's output -/

theorem parseField2_pad2 (maxV n : Nat) (hn : n ≤ maxV) (h99 : n ≤ 99) (rest : List Char) :
    parseField2 maxV (pad2 n ++ rest) = some (n, rest) := by
  have h1 : digitVal (dchar (n / 10)) = n / 10 := digitVal_dchar _ (by omega)
  have h2 : digitVal (dchar (n % 10)) = n % 10 := digitVal_dchar _ (by omega)
  have hv : digitVal (dchar (n / 10)) * 10 + digitVal (dchar (n % 10)) = n := by
    rw [h1, h2]; omega
  simp only [pad2, List.cons_append, List.nil_append, parseField2, isDig_dchar,
    Bool.and_self, if_true, hv, hn, if_pos]

theorem expectChar_cons (c : Char) (rest : List Char) : expectChar c (c :: rest) = some rest := by
  simp [expectChar]

theorem takeDigits_pad6 (f : Nat) : takeDigits 6 (pad6 f) = (pad6 f, []) := by
  simp [pad6, takeDigits, isDig_dchar]

theorem digitsVal_pad6 (f : Nat) (hf : f < 1000000) : digitsVal (pad6 f) = f := by
  have e1 := digitVal_dchar (f / 100000 % 10) (by omega)
  have e2 := digitVal_dchar (f / 10000 % 10) (by omega)
  have e3 := digitVal_dchar (f / 1000 % 10) (by omega)
  have e4 := digitVal_dchar (f / 100 % 10) (by omega)
  have e5 := digitVal_dchar (f / 10 % 10) (by omega)
  have e6 := digitVal_dchar (f % 10) (by omega)
  simp only [digitsVal, pad6, List.foldl, e1, e2, e3, e4, e5, e6]
  omega

theorem parseFrac_pad6 (f : Nat) (hf : f < 1000000) : parseFrac (pad6 f) = some (f, []) := by
  unfold parseFrac
  rw [takeDigits_pad6]
  simp only [digitsVal_pad6 f hf]
  simp [pad6]

theorem parseTS_fmtTS (t : Nat) (ht : t < microsPerDay) : parseTS (fmtTS t) = some t := by
  have hday : t < 86400000000 := ht
  have hh : t / 3600000000 ≤ 23 := by omega
  have hm : t / 60000000 % 60 ≤ 59 := by omega
  have hs : t / 1000000 % 60 ≤ 59 := by omega
  have hf : t % 1000000 < 1000000 := by omega
  have H1 := parseField2_pad2 23 (t / 3600000000) hh (by omega)
  have H2 := parseField2_pad2 59 (t / 60000000 % 60) hm (by omega)
  have H3 := parseField2_pad2 59 (t / 1000000 % 60) hs (by omega)
  have H4 := parseFrac_pad6 (t % 1000000) hf
  simp only [parseTS, fmtTS]
  simp [H1, H2, H3, H4, expectChar_cons]
  omega

/-! ### Shift arithmetic -/

theorem shiftMicros_lt (t : Nat) (d : Int) : shiftMicros t d < microsPerDay := by
  unfold shiftMicros microsPerDay
  omega

theorem shiftMicros_roundtrip (t : Nat) (d : Int) (ht : t < microsPerDay) :
    shiftMicros (shiftMicros t d) (-d) = t := by
  unfold shiftMicros microsPerDay at *
  omega

end Srt

namespace Srt

/-! ### increment_line on canonically serialized lines -/

theorem splitMarker_canonical (t1 t2 : Nat) :
    splitMarker (canonicalLine t1 t2) = [fmtTS t1 ++ [' '], ' ' :: fmtTS t2 ++ ['\n']] := by
  have hshape : canonicalLine t1 t2 =
      (fmtTS t1 ++ [' ']) ++ '-' :: '-' :: '>' :: (' ' :: fmtTS t2 ++ ['\n']) := by
    simp [canonicalLine]
  rw [hshape]
  refine splitMarker_two _ _ ?_ ?_
  · intro c hc
    rcases List.mem_append.mp hc with h | h
    · exact (fmtTS_chars t1 c h).2
    · simp at h; rw [h]; decide
  · intro c hc
    rcases List.mem_cons.mp hc with h | h
    · rw [h]; decide
    · rcases List.mem_append.mp h with h2 | h2
      · exact (fmtTS_chars t2 c h2).2
      · simp at h2; rw [h2]; decide

theorem pyStrip_part1 (t : Nat) : pyStrip (fmtTS t ++ [' ']) = fmtTS t := by
  have h := pyStrip_of_clean (fmtTS t) [] [' ']
    (fun c hc => (fmtTS_chars t c hc).1)
    (by intro c hc; simp at hc)
    (by intro c hc; simp at hc; rw [hc]; rfl)
  simpa using h

theorem pyStrip_part2 (t : Nat) : pyStrip (' ' :: fmtTS t ++ ['\n']) = fmtTS t := by
  have h := pyStrip_of_clean (fmtTS t) [' '] ['\n']
    (fun c hc => (fmtTS_chars t c hc).1)
    (by intro c hc; simp at hc; rw [hc]; rfl)
    (by intro c hc; simp at hc; rw [hc]; rfl)
  simpa using h

theorem increment_line_eq (a b line : List Char) (d : Int) (t1 t2 : Nat)
    (hsplit : splitMarker line = [a, b])
    (ha : parseTS (pyStrip a) = some t1) (hb : parseTS (pyStrip b) = some t2) :
    increment_line line d = some (canonicalLine (shiftMicros t1 d) (shiftMicros t2 d)) := by
  unfold increment_line
  simp only [hsplit, ha, hb]

theorem increment_line_canonical (t1 t2 : Nat) (d : Int) (h1 : t1 < microsPerDay)
    (h2 : t2 < microsPerDay) :
    increment_line (canonicalLine t1 t2) d =
      some (canonicalLine (shiftMicros t1 d) (shiftMicros t2 d)) := by
  refine increment_line_eq _ _ _ d t1 t2 (splitMarker_canonical t1 t2) ?_ ?_
  · rw [pyStrip_part1]; exact parseTS_fmtTS t1 h1
  · rw [pyStrip_part2]; exact parseTS_fmtTS t2 h2

/-! ### Structure of successful and failed runs -/

theorem generate_some_spec (lines : List (List Char)) (d : Int) (out : List (List Char))
    (h : generate_new_srt_file lines d = some out) :
    out.length = lines.length ∧
      ∀ (i : Nat) (h1 : i < out.length) (h2 : i < lines.length),
        (containsMarker (lines.get ⟨i, h2⟩) = false → out.get ⟨i, h1⟩ = lines.get ⟨i, h2⟩) ∧
        (containsMarker (lines.get ⟨i, h2⟩) = true →
          increment_line (lines.get ⟨i, h2⟩) d = some (out.get ⟨i, h1⟩)) := by
  induction lines generalizing out with
  | nil =>
    simp only [generate_new_srt_file, Option.some.injEq] at h
    subst h
    exact ⟨rfl, fun i h1 h2 => absurd h2 (by simp)⟩
  | cons l ls ih =>
    unfold generate_new_srt_file at h
    by_cases hm : containsMarker l
    · rw [if_pos hm] at h
      cases hinc : increment_line l d with
      | none => rw [hinc] at h; exact absurd h (by simp)
      | some nl =>
        rw [hinc] at h
        obtain ⟨r, hr, hout⟩ := Option.map_eq_some'.mp h
        subst hout
        obtain ⟨hlen, hidx⟩ := ih r hr
        refine ⟨by simpa using hlen, ?_⟩
        intro i hi1 hi2
        cases i with
        | zero => exact ⟨fun hf => absurd hf (by simp [hm]), fun _ => by simpa using hinc⟩
        | succ j =>
          exact hidx j (by simpa using hi1) (by simpa using hi2)
    · rw [if_neg hm] at h
      obtain ⟨r, hr, hout⟩ := Option.map_eq_some'.mp h
      subst hout
      obtain ⟨hlen, hidx⟩ := ih r hr
      refine ⟨by simpa using hlen, ?_⟩
      intro i hi1 hi2
      cases i with
      | zero => exact ⟨fun _ => rfl, fun ht => absurd ht hm⟩
      | succ j =>
        exact hidx j (by simpa using hi1) (by simpa using hi2)

theorem generate_none_of_bad (lines : List (List Char)) (d : Int) (l : List Char)
    (hmem : l ∈ lines) (hm : containsMarker l = true) (hinc : increment_line l d = none) :
    generate_new_srt_file lines d = none := by
  induction lines with
  | nil => simp at hmem
  | cons x ls ih =>
    rcases List.mem_cons.mp hmem with h | h
    · rw [h] at hm hinc
      simp [generate_new_srt_file, hm, hinc]
    · by_cases hx : containsMarker x
      · cases hinc2 : increment_line x d with
        | none => simp [generate_new_srt_file, hx, hinc2]
        | some nl => simp [generate_new_srt_file, hx, hinc2, ih h]
      · simp [generate_new_srt_file, hx, ih h]

end Srt

namespace Srt

/-- A range line that does not split into exactly two parts, or whose parts do
not both parse, makes increment_line fail. -/
theorem increment_line_none_of_bad (line : List Char) (d : Int)
    (h : (splitMarker line).length ≠ 2 ∨ ∃ p ∈ splitMarker line, parseTS (pyStrip p) = none) :
    increment_line line d = none := by
  unfold increment_line
  cases hsp : splitMarker line with
  | nil => rfl
  | cons a tail =>
    cases tail with
    | nil => rfl
    | cons b tail2 =>
      cases tail2 with
      | cons c r => rfl
      | nil =>
        rcases h with hlen | ⟨p, hp, hnone⟩
        · rw [hsp] at hlen; simp at hlen
        · rw [hsp] at hp
          simp only [List.mem_cons, List.not_mem_nil, or_false] at hp
          rcases hp with h1 | h1
          · rw [h1] at hnone; simp [hnone]
          · rw [h1] at hnone
            cases hpa : parseTS (pyStrip a) <;> simp [hpa, hnone]

end Srt

namespace Srt

/-! ### Claim C1 -/

/-- Claim C1: for every input, a successful run produces exactly as many lines
as the input, in the same order, and a line's content changes only if the line
contains the range marker '-->'. -/
theorem claim1_line_count_preserved (lines : List (List Char)) (d : Int)
    (out : List (List Char)) (h : generate_new_srt_file lines d = some out) :
    out.length = lines.length ∧
      ∀ (i : Nat) (h1 : i < out.length) (h2 : i < lines.length),
        out.get ⟨i, h1⟩ ≠ lines.get ⟨i, h2⟩ → containsMarker (lines.get ⟨i, h2⟩) = true := by
  obtain ⟨hlen, hidx⟩ := generate_some_spec lines d out h
  refine ⟨hlen, fun i h1 h2 hne => ?_⟩
  by_cases hm : containsMarker (lines.get ⟨i, h2⟩)
  · exact hm
  · exact absurd ((hidx i h1 h2).1 (by simpa using hm)) hne

/-- Claim C1, witness at a concrete one-line input. -/
theorem claim1_witness :
    (generate_new_srt_file ["00:00:01,000 --> 00:00:03,500\n".toList] 1500
        = some ["00:00:02,500000 --> 00:00:05,000000\n".toList]) ∧
      (["00:00:02,500000 --> 00:00:05,000000\n".toList].length
          = ["00:00:01,000 --> 00:00:03,500\n".toList].length ∧
        ∀ (i : Nat) (h1 : i < ["00:00:02,500000 --> 00:00:05,000000\n".toList].length)
            (h2 : i < ["00:00:01,000 --> 00:00:03,500\n".toList].length),
          ["00:00:02,500000 --> 00:00:05,000000\n".toList].get ⟨i, h1⟩
              ≠ ["00:00:01,000 --> 00:00:03,500\n".toList].get ⟨i, h2⟩ →
            containsMarker (["00:00:01,000 --> 00:00:03,500\n".toList].get ⟨i, h2⟩) = true) :=
  ⟨by decide, claim1_line_count_preserved _ 1500 _ (by decide)⟩

/-! ### Claim C2 -/

/-- Claim C2 counterexample: at the byte level the claim fails.  The input
file 'Hello\x0d\n' has a single marker-free line whose bytes end in CRLF;
Python's text-mode read translates the terminator, and the tool writes back
'Hello\n', which is not byte-identical to the input line. -/
theorem claim2_counterexample :
    fileLines "Hello\r\n".toList = ["Hello\n".toList] ∧
      containsMarker "Hello\n".toList = false ∧
      shiftFileBytes "Hello\r\n".toList 1500 = some "Hello\n".toList ∧
      "Hello\n".toList ≠ "Hello\r\n".toList := by decide

/-- Claim C2 (amended): for every line as the program reads it (after
universal-newline translation) that does not contain '-->', the corresponding
output line is identical, terminator included; byte-identity with the raw
file holds only for lines whose original terminator already was a bare
newline. -/
theorem claim2_passthrough_amended (lines : List (List Char)) (d : Int)
    (out : List (List Char)) (h : generate_new_srt_file lines d = some out)
    (i : Nat) (h1 : i < out.length) (h2 : i < lines.length)
    (hm : containsMarker (lines.get ⟨i, h2⟩) = false) :
    out.get ⟨i, h1⟩ = lines.get ⟨i, h2⟩ :=
  ((generate_some_spec lines d out h).2 i h1 h2).1 hm

/-- Claim C2 (amended), witness at a concrete two-line input. -/
theorem claim2_witness :
    (generate_new_srt_file
          ["Hello world\n".toList, "00:00:01,000 --> 00:00:03,500\n".toList] 1500
        = some ["Hello world\n".toList, "00:00:02,500000 --> 00:00:05,000000\n".toList] ∧
      containsMarker "Hello world\n".toList = false) ∧
      (["Hello world\n".toList, "00:00:02,500000 --> 00:00:05,000000\n".toList]
            : List (List Char)).get ⟨0, by decide⟩
        = (["Hello world\n".toList, "00:00:01,000 --> 00:00:03,500\n".toList]
            : List (List Char)).get ⟨0, by decide⟩ :=
  ⟨⟨by decide, by decide⟩,
    claim2_passthrough_amended _ 1500 _ (by decide) 0 (by decide) (by decide) (by decide)⟩

end Srt

namespace Srt

/-! ### Claim C3 -/

/-- Claim C3: the spec example expects the output line
'00:00:02,500 --> 00:00:05,000' with three-digit millisecond fields, but
strftime's %f always renders six digits, so on the example input with offset
+1500 the code actually produces '00:00:02,500000 --> 00:00:05,000000';
the shifted time values themselves match the example. -/
theorem claim3_actual_output :
    increment_line "00:00:01,000 --> 00:00:03,500\n".toList 1500
        = some "00:00:02,500000 --> 00:00:05,000000\n".toList ∧
      "00:00:02,500000 --> 00:00:05,000000\n".toList
        ≠ "00:00:02,500 --> 00:00:05,000\n".toList := by decide

/-! ### Claim C4 -/

/-- Claim C4 counterexample: shifting the range line
'00:00:01,000 --> 00:00:03,500' by +1000 ms and then by -1000 ms (far from
any 24h wrap) yields '00:00:01,000000 --> 00:00:03,500000', not the original
text: the re-serialization expands the fraction fields to six digits. -/
theorem claim4_counterexample :
    ((increment_line "00:00:01,000 --> 00:00:03,500\n".toList 1000).bind
        (fun l => increment_line l (-1000)))
      = some "00:00:01,000000 --> 00:00:03,500000\n".toList ∧
      "00:00:01,000000 --> 00:00:03,500000\n".toList
        ≠ "00:00:01,000 --> 00:00:03,500\n".toList := by decide

/-- Claim C4 (amended): for every range line already in the tool's canonical
serialized form (strftime-formatted timestamps joined by ' --> ' with a
trailing newline) and every offset d that does not cause a 24-hour wrap on
either timestamp, shifting by +d and then by -d reproduces the line exactly;
lines not in canonical form are instead mapped to their canonical
re-serialization, so the exact round trip fails for them.  The no-wrap
proviso also keeps the datetime arithmetic inside the model's faithful
range (no date roll, no CPython OverflowError). -/
theorem claim4_roundtrip_amended (t1 t2 : Nat) (d : Int)
    (h1 : t1 < microsPerDay) (h2 : t2 < microsPerDay)
    (hw1 : noWrap t1 d) (hw2 : noWrap t2 d) :
    (increment_line (canonicalLine t1 t2) d).bind (fun l => increment_line l (-d))
      = some (canonicalLine t1 t2) := by
  rw [increment_line_canonical t1 t2 d h1 h2]
  show increment_line (canonicalLine (shiftMicros t1 d) (shiftMicros t2 d)) (-d)
      = some (canonicalLine t1 t2)
  rw [increment_line_canonical _ _ _ (shiftMicros_lt t1 d) (shiftMicros_lt t2 d),
    shiftMicros_roundtrip t1 d h1, shiftMicros_roundtrip t2 d h2]

/-- Claim C4 (amended), witness at t1 = 1s, t2 = 3.5s, d = +1500 ms, where no
wrap occurs. -/
theorem claim4_witness :
    (1000000 < microsPerDay ∧ 3500000 < microsPerDay ∧
        noWrap 1000000 1500 ∧ noWrap 3500000 1500) ∧
      (increment_line (canonicalLine 1000000 3500000) 1500).bind
          (fun l => increment_line l (-1500)) = some (canonicalLine 1000000 3500000) :=
  ⟨⟨by decide, by decide, by decide, by decide⟩,
    claim4_roundtrip_amended 1000000 3500000 1500 (by decide) (by decide)
      (by decide) (by decide)⟩

/-! ### Claim C5 -/

/-- Claim C5: the arithmetic does wrap modulo 24 hours without clamping or
raising, as the claim says (23:59:59 + 2s lands on 00:00:01, and 00:00:01 -
2s lands back on 23:59:59), but the rendered result is '00:00:01,000000'
with a six-digit %f field, not the '00:00:01,000' the claim states. -/
theorem claim5_wrap_actual :
    (parseTS "23:59:59,000".toList).map (fun t => fmtTS (shiftMicros t 2000))
        = some "00:00:01,000000".toList ∧
      (parseTS "00:00:01,000".toList).map (fun t => fmtTS (shiftMicros t (-2000)))
        = some "23:59:59,000000".toList ∧
      "00:00:01,000000".toList ≠ "00:00:01,000".toList := by decide

/-! ### Claim C7 -/

/-- Claim C7: on '00:00:05,000 --> 00:00:10,000' with offset -3000 the code
produces '00:00:02,000000 --> 00:00:07,000000' (plus the appended newline):
the shifted times match the claim, but the %f fields are rendered with six
digits, not the claimed '00:00:02,000 --> 00:00:07,000'. -/
theorem claim7_actual_output :
    increment_line "00:00:05,000 --> 00:00:10,000".toList (-3000)
        = some "00:00:02,000000 --> 00:00:07,000000\n".toList ∧
      (∀ rest : List Char,
        "00:00:02,000000 --> 00:00:07,000000\n".toList
          ≠ "00:00:02,000 --> 00:00:07,000".toList ++ rest) := by
  refine ⟨by decide, fun rest hne => ?_⟩
  have : "00:00:02,000000 --> 00:00:07,000000\n".toList.take 13
      = ("00:00:02,000 --> 00:00:07,000".toList ++ rest).take 13 := by rw [hne]
  rw [List.take_append_of_le_length (by decide)] at this
  revert this
  decide

end Srt

namespace Srt

/-! ### Claim C6 -/

/-- Claim C6: if any range line fails to split on the marker into exactly two
parts, or either part fails to parse under the time format, the whole run
aborts with the parse error; no per-line skip and no partial success result
exists. -/
theorem claim6_parse_error_aborts (lines : List (List Char)) (d : Int) (l : List Char)
    (hmem : l ∈ lines) (hm : containsMarker l = true)
    (hbad : (splitMarker l).length ≠ 2 ∨ ∃ p ∈ splitMarker l, parseTS (pyStrip p) = none) :
    mainShift lines d = ShiftResult.parseError pyErrorMessage := by
  unfold mainShift
  rw [generate_none_of_bad lines d l hmem hm (increment_line_none_of_bad l d hbad)]

/-- Claim C6, witness: a file whose second line is a range line with an
unparsable start timestamp. -/
theorem claim6_witness :
    ("bad --> 00:00:00,000\n".toList
          ∈ ["1\n".toList, "bad --> 00:00:00,000\n".toList] ∧
        containsMarker "bad --> 00:00:00,000\n".toList = true ∧
        (∃ p ∈ splitMarker "bad --> 00:00:00,000\n".toList, parseTS (pyStrip p) = none)) ∧
      mainShift ["1\n".toList, "bad --> 00:00:00,000\n".toList] 42
        = ShiftResult.parseError pyErrorMessage :=
  ⟨⟨by decide, by decide, by decide⟩,
    claim6_parse_error_aborts _ 42 "bad --> 00:00:00,000\n".toList (by decide) (by decide)
      (Or.inr (by decide))⟩

/-! ### Claim C8 -/

/-- Claim C8 counterexample: a range line without a trailing newline (such as
the last line of a file) is still serialized with a trailing '\n' — the
terminator is appended unconditionally, not taken from the original line. -/
theorem claim8_counterexample :
    increment_line "00:00:01,000 --> 00:00:03,500".toList 1500
        = some "00:00:02,500000 --> 00:00:05,000000\n".toList ∧
      "00:00:01,000 --> 00:00:03,500".toList.getLast? ≠ some '\n' ∧
      "00:00:02,500000 --> 00:00:05,000000\n".toList.getLast? = some '\n' := by decide

/-- Claim C8 (amended): every transformed range line is serialized as the
reformatted start timestamp, the literal ' --> ', the reformatted end
timestamp, and a single '\n' appended unconditionally — which coincides with
the original terminator only when that terminator was '\n'. -/
theorem claim8_serialization_amended (line : List Char) (d : Int) (out : List Char)
    (h : increment_line line d = some out) :
    ∃ a b t1 t2, splitMarker line = [a, b] ∧ parseTS (pyStrip a) = some t1 ∧
      parseTS (pyStrip b) = some t2 ∧
      out = fmtTS (shiftMicros t1 d) ++ ' ' :: '-' :: '-' :: '>' :: ' ' ::
        fmtTS (shiftMicros t2 d) ++ ['\n'] := by
  unfold increment_line at h
  cases hsp : splitMarker line with
  | nil => rw [hsp] at h; exact absurd h (by simp)
  | cons a tail =>
    cases tail with
    | nil => rw [hsp] at h; exact absurd h (by simp)
    | cons b tail2 =>
      cases tail2 with
      | cons c r => rw [hsp] at h; exact absurd h (by simp)
      | nil =>
        rw [hsp] at h
        cases hpa : parseTS (pyStrip a) with
        | none => simp [hpa] at h
        | some t1 =>
          cases hpb : parseTS (pyStrip b) with
          | none => simp [hpa, hpb] at h
          | some t2 =>
            simp only [hpa, hpb, Option.some.injEq] at h
            refine ⟨a, b, t1, t2, rfl, hpa, hpb, ?_⟩
            rw [← h]; rfl

/-- Claim C8 (amended), witness on a terminator-free range line. -/
theorem claim8_witness :
    ∃ a b t1 t2, splitMarker "00:00:01,000 --> 00:00:03,500".toList = [a, b] ∧
      parseTS (pyStrip a) = some t1 ∧ parseTS (pyStrip b) = some t2 ∧
      "00:00:02,500000 --> 00:00:05,000000\n".toList
        = fmtTS (shiftMicros t1 1500) ++ ' ' :: '-' :: '-' :: '>' :: ' ' ::
            fmtTS (shiftMicros t2 1500) ++ ['\n'] :=
  claim8_serialization_amended "00:00:01,000 --> 00:00:03,500".toList 1500
    "00:00:02,500000 --> 00:00:05,000000\n".toList (by decide)

end Srt

namespace Srt

/-! ### Claim C9 -/

/-- Claim C9 counterexample: two inputs whose offending lines have different
indices (1 and 0) and different raw texts produce the very same error value,
and that value contains neither the raw line text nor any digit that could
encode an index — so the surfaced error carries neither piece of
diagnostic data. -/
theorem claim9_counterexample :
    mainShift ["ok\n".toList, "bad --> 00:00:00,000\n".toList] 0
        = ShiftResult.parseError pyErrorMessage ∧
      mainShift ["x --> y\n".toList] 5 = ShiftResult.parseError pyErrorMessage ∧
      containsSub "bad --> 00:00:00,000\n".toList pyErrorMessage = false ∧
      containsSub "x --> y\n".toList pyErrorMessage = false ∧
      containsSub ['0'] pyErrorMessage = false ∧
      containsSub ['1'] pyErrorMessage = false := by decide

/-- Claim C9 (amended): when the operation fails, the surfaced error is the
ValueError with the fixed text 'Failed to parse SRT file: incorrect format';
it carries neither the offending line's index nor its raw text (only the
chained cause, which main does not surface, mentions the failing timestamp
substring). -/
theorem claim9_error_is_fixed_amended (lines : List (List Char)) (d : Int) (msg : List Char)
    (h : mainShift lines d = ShiftResult.parseError msg) : msg = pyErrorMessage := by
  unfold mainShift at h
  cases hg : generate_new_srt_file lines d with
  | some out => rw [hg] at h; exact absurd h (by simp)
  | none => rw [hg] at h; simpa using h.symm

/-- Claim C9 (amended), witness at a concrete failing input. -/
theorem claim9_witness :
    (mainShift ["x --> y\n".toList] 5 = ShiftResult.parseError pyErrorMessage) ∧
      pyErrorMessage = pyErrorMessage :=
  ⟨by decide, claim9_error_is_fixed_amended ["x --> y\n".toList] 5 pyErrorMessage (by decide)⟩

/-! ### Claim C10 -/

/-- Claim C10: when any range line fails to parse, the output path is left
exactly as it was (not created when absent, not modified when present): the
whole transformed line list is built in memory before the output file is
opened, so the failure occurs before any write. -/
theorem claim10_no_output_on_failure (prev : Option (List Char)) (lines : List (List Char))
    (d : Int) (l : List Char) (hmem : l ∈ lines) (hm : containsMarker l = true)
    (hfail : increment_line l d = none) :
    outputFileAfter prev lines d = prev := by
  unfold outputFileAfter
  rw [generate_none_of_bad lines d l hmem hm hfail]

/-- Claim C10, witness: failing input leaves pre-existing output content in
place (and, with prev = none, creates nothing). -/
theorem claim10_witness :
    ("bad --> 1\n".toList ∈ ["ok\n".toList, "bad --> 1\n".toList] ∧
        containsMarker "bad --> 1\n".toList = true ∧
        increment_line "bad --> 1\n".toList 99 = none) ∧
      outputFileAfter (some "old content".toList) ["ok\n".toList, "bad --> 1\n".toList] 99
        = some "old content".toList :=
  ⟨⟨by decide, by decide, by decide⟩,
    claim10_no_output_on_failure (some "old content".toList) _ 99 "bad --> 1\n".toList
      (by decide) (by decide) (by decide)⟩

end Srt
